import Mathlib

/-!
Shallow embedding of the validation and scoring core of the LLM-Function
repository: the data model of src/src/validation_engine/models.py,
src/src/action_tracker/models.py, src/src/claim_extractor/models.py,
src/src/scenario_engine/models.py and src/src/scoring_system/models.py,
together with the functions of src/src/validation_engine/validator.py and
src/src/scoring_system/scorer.py. Python floats are modelled as rationals,
Python dicts as association lists in insertion order, Python sets as
duplicate-free lists, and the wall clock read by the default factory of
ValidationReport.timestamp as an explicit argument of validate.
-/

namespace LLMF

/-- Model of a Python value that can appear in a tool-call argument map or an
expected-parameter map. The constructor for None is needed because
dict.get returns None both for an absent key and for a key bound to None. -/
inductive PyVal where
  | none
  | str (s : String)
  | int (n : Int)
  | bool (b : Bool)
  deriving DecidableEq

/-- Rendering of a PyVal inside a Python f-string. -/
def pyStr : PyVal → String
  | PyVal.none => "None"
  | PyVal.str s => s
  | PyVal.int n => toString n
  | PyVal.bool b => if b then "True" else "False"

/-- Model of Python dict.get with default None: an absent key and a key bound
to None are indistinguishable in the result. -/
def pyGet (args : List (String × PyVal)) (key : String) : PyVal :=
  match args.lookup key with
  | some v => v
  | Option.none => PyVal.none

/-- Truthiness of an Optional[str]: None and the empty string are falsy. -/
def pyTruthyStr : Option String → Bool
  | Option.none => false
  | some s => !(s == "")

/-- Rendering of an Optional[str] inside a Python f-string. -/
def optStr (o : Option String) : String :=
  match o with
  | some s => s
  | Option.none => "None"

/-- Model of building a Python set from a list: duplicates removed, first
occurrence order kept. Only membership and emptiness of the result matter to
the engine. -/
def pySet (l : List String) : List String := l.dedup

/-- Python round-half-even of a rational to the nearest integer. -/
def pyRoundInt (q : ℚ) : ℤ :=
  if q - ⌊q⌋ < 1/2 then ⌊q⌋
  else if 1/2 < q - ⌊q⌋ then ⌊q⌋ + 1
  else if ⌊q⌋ % 2 = 0 then ⌊q⌋ else ⌊q⌋ + 1

/-- Python round(x, 2) on the rational model of a float. -/
def pyRound2 (q : ℚ) : ℚ := (pyRoundInt (q * 100) : ℚ) / 100

/-- Python format specifier .1f on a nonnegative rational. -/
def fmt1 (q : ℚ) : String :=
  let n := pyRoundInt (q * 10)
  toString (n / 10) ++ "." ++ toString (n % 10)

/-- DifficultyLevel from src/src/scenario_engine/models.py. -/
inductive DifficultyLevel where
  | easy
  | medium
  | hard
  deriving DecidableEq

/-- ScenarioCategory from src/src/scenario_engine/models.py. -/
inductive ScenarioCategory where
  | file_ops
  | code_search
  | debugging
  | multi_step
  | edge_cases
  | hallucination_tests
  deriving DecidableEq

/-- Prompt from src/src/scenario_engine/models.py. -/
structure Prompt where
  user_query : String
  context : Option String := Option.none
  files_mentioned : List String := []
  deriving DecidableEq

/-- ExpectedBehavior from src/src/scenario_engine/models.py. The
required_parameters dict is an association list in insertion order. -/
structure ExpectedBehavior where
  required_tools : List String := []
  optional_tools : List String := []
  forbidden_tools : List String := []
  required_parameters : List (String × List (String × PyVal)) := []
  sequence_matters : Bool := false
  expected_sequence : List String := []
  min_tool_calls : Option Nat := Option.none
  max_tool_calls : Option Nat := Option.none
  deriving DecidableEq

/-- HallucinationTraps from src/src/scenario_engine/models.py. -/
structure HallucinationTraps where
  description : String
  common_mistakes : List String := []
  deriving DecidableEq

/-- TestScenario from src/src/scenario_engine/models.py. -/
structure TestScenario where
  id : String
  name : String
  category : ScenarioCategory
  prompt : Prompt
  expected_behavior : ExpectedBehavior
  hallucination_traps : Option HallucinationTraps := Option.none
  difficulty : DifficultyLevel := DifficultyLevel.medium
  expected_time : Nat := 10
  deriving DecidableEq

/-- Action from src/src/action_tracker/models.py: one recorded tool call.
The arguments dict is an association list in insertion order. -/
structure Action where
  sequence_number : Nat
  function_name : String
  arguments : List (String × PyVal)
  timestamp : Option Nat := Option.none
  call_id : Option String := Option.none
  deriving DecidableEq

/-- ActionSummary from src/src/action_tracker/models.py. The set
unique_tools_used is modelled as a list read only through membership. -/
structure ActionSummary where
  unique_tools_used : List String := []
  tools_called_multiple_times : List String := []
  tool_call_counts : List (String × Nat) := []
  deriving DecidableEq

/-- ActionLog from src/src/action_tracker/models.py. -/
structure ActionLog where
  scenario_id : Option String := Option.none
  total_calls : Nat := 0
  actions : List Action := []
  summary : ActionSummary := {}
  deriving DecidableEq

/-- ClaimType from src/src/claim_extractor/models.py. -/
inductive ClaimType where
  | explicit
  | implicit
  | conditional
  | vague
  deriving DecidableEq

/-- Claim from src/src/claim_extractor/models.py. The confidence float is
modelled as a rational. -/
structure Claim where
  claim_text : String
  action_verb : Option String := Option.none
  target_object : Option String := Option.none
  inferred_tool : Option String := Option.none
  confidence : ℚ := 0
  line_number : Option Nat := Option.none
  claim_type : ClaimType := ClaimType.explicit
  deriving DecidableEq

/-- ClaimLog from src/src/claim_extractor/models.py. The three partition
lists are independent input fields, filled by the upstream extractor. -/
structure ClaimLog where
  scenario_id : Option String := Option.none
  total_claims : Nat := 0
  claims : List Claim := []
  explicit_claims : List Claim := []
  implicit_claims : List Claim := []
  vague_statements : List Claim := []
  deriving DecidableEq

/-- ValidationStatus from src/src/validation_engine/models.py. The third
Python member PARTIAL is rendered here with a trailing underscore. -/
inductive ValidationStatus where
  | pass
  | fail
  | partial_
  deriving DecidableEq

/-- IssueSeverity from src/src/validation_engine/models.py. -/
inductive IssueSeverity where
  | critical
  | high
  | medium
  | low
  deriving DecidableEq

/-- IssueType from src/src/validation_engine/models.py. -/
inductive IssueType where
  | missing_required_tool
  | forbidden_tool_used
  | wrong_parameter
  | wrong_sequence
  | claim_without_action
  | action_without_claim
  | claim_action_mismatch
  | too_few_calls
  | too_many_calls
  deriving DecidableEq

/-- Values stored in the untyped expected/actual slots of a
RequirementCheck: a list of tool names, a call count, or the min/max bounds
dict of the call-count check. -/
inductive CheckVal where
  | strs (l : List String)
  | nat (n : Nat)
  | bounds (lo hi : Option Nat)
  deriving DecidableEq

/-- RequirementCheck from src/src/validation_engine/models.py. -/
structure RequirementCheck where
  name : String
  status : ValidationStatus
  expected : Option CheckVal := Option.none
  actual : Option CheckVal := Option.none
  missing : List String := []
  extra : List String := []
  details : Option String := Option.none
  deriving DecidableEq

/-- ConsistencyIssue from src/src/validation_engine/models.py. The detail
payload is a dict whose values are argument dicts, matching the single shape
the engine produces. -/
structure ConsistencyIssue where
  type : IssueType
  severity : IssueSeverity
  claim : Option String := Option.none
  action : Option String := Option.none
  expected_tool : Option String := Option.none
  actual_tool : Option String := Option.none
  quote : Option String := Option.none
  explanation : String
  details : Option (List (String × List (String × PyVal))) := Option.none
  deriving DecidableEq

/-- ValidationReport from src/src/validation_engine/models.py. The timestamp
field has default_factory=datetime.now in the source; it is modelled as a
clock reading supplied at construction. -/
structure ValidationReport where
  scenario_id : Option String := Option.none
  timestamp : Nat
  pass_fail_status : ValidationStatus
  required_tools_check : RequirementCheck
  forbidden_tools_check : RequirementCheck
  parameters_check : RequirementCheck
  sequence_check : Option RequirementCheck := Option.none
  call_count_check : Option RequirementCheck := Option.none
  hallucinations : List ConsistencyIssue := []
  silent_actions : List ConsistencyIssue := []
  mismatches : List ConsistencyIssue := []
  total_issues : Nat := 0
  critical_issues : Nat := 0
  high_severity_issues : Nat := 0
  medium_severity_issues : Nat := 0
  low_severity_issues : Nat := 0
  deriving DecidableEq

/-- LetterGrade from src/src/scoring_system/models.py. -/
inductive LetterGrade where
  | aPlus
  | a
  | b
  | c
  | d
  | f
  deriving DecidableEq

/-- ScoringCriteria from src/src/scoring_system/models.py. -/
structure ScoringCriteria where
  name : String
  weight : ℚ
  description : String
  deriving DecidableEq

/-- Subscore from src/src/scoring_system/models.py. -/
structure Subscore where
  criterion : String
  score : ℚ
  max_score : ℚ := 10
  weight : ℚ
  weighted_score : ℚ
  explanation : String
  deriving DecidableEq

/-- Score from src/src/scoring_system/models.py. The subscores dict is an
association list in insertion order. -/
structure Score where
  total : ℚ
  max_total : ℚ := 10
  subscores : List (String × Subscore) := []
  grade : LetterGrade
  percentile : ℚ
  explanation : String
  deriving DecidableEq

/-- ValidationEngine._check_required_tools from
src/src/validation_engine/validator.py. -/
def check_required_tools (scenario : TestScenario) (action_log : ActionLog) :
    RequirementCheck :=
  let required := pySet scenario.expected_behavior.required_tools
  let actual := action_log.summary.unique_tools_used
  let missing := required.filter (fun t => decide (t ∉ actual))
  { name := "Required Tools",
    status := if missing = [] then ValidationStatus.pass else ValidationStatus.fail,
    expected := some (CheckVal.strs required),
    actual := some (CheckVal.strs actual),
    missing := missing }

/-- ValidationEngine._check_forbidden_tools from
src/src/validation_engine/validator.py. -/
def check_forbidden_tools (scenario : TestScenario) (action_log : ActionLog) :
    RequirementCheck :=
  let forbidden := pySet scenario.expected_behavior.forbidden_tools
  let actual := action_log.summary.unique_tools_used
  let violations := forbidden.filter (fun t => decide (t ∈ actual))
  { name := "Forbidden Tools",
    status := if violations = [] then ValidationStatus.pass else ValidationStatus.fail,
    expected := some (CheckVal.strs forbidden),
    actual := some (CheckVal.strs actual),
    extra := violations }

/-- Body of the parameter loop of ValidationEngine._check_parameters: the
error strings contributed by one expected parameter of one action. An
argument whose dict.get result is None counts as missing; any other unequal
value is a mismatch. -/
def param_error (tool_name : String) (action : Action) (p : String × PyVal) :
    List String :=
  let actual_value := pyGet action.arguments p.1
  if actual_value = PyVal.none then
    [tool_name ++ "." ++ p.1 ++ ": missing"]
  else if actual_value ≠ p.2 then
    [tool_name ++ "." ++ p.1 ++ ": expected " ++ pyStr p.2 ++ ", got " ++
      pyStr actual_value]
  else []

/-- Error accumulation loop of ValidationEngine._check_parameters from
src/src/validation_engine/validator.py. -/
def parameters_errors (scenario : TestScenario) (action_log : ActionLog) :
    List String :=
  scenario.expected_behavior.required_parameters.flatMap (fun pr =>
    let actions := action_log.actions.filter (fun a => a.function_name == pr.1)
    if actions.isEmpty then ["Tool " ++ pr.1 ++ " not called"]
    else actions.flatMap (fun a => pr.2.flatMap (param_error pr.1 a)))

/-- ValidationEngine._check_parameters from
src/src/validation_engine/validator.py. -/
def check_parameters (scenario : TestScenario) (action_log : ActionLog) :
    RequirementCheck :=
  let errors := parameters_errors scenario action_log
  { name := "Parameters",
    status := if errors = [] then ValidationStatus.pass else ValidationStatus.fail,
    details := if errors = [] then Option.none
      else some (String.intercalate "; " errors) }

/-- ValidationEngine._check_sequence from
src/src/validation_engine/validator.py. -/
def check_sequence (scenario : TestScenario) (action_log : ActionLog) :
    Option RequirementCheck :=
  if scenario.expected_behavior.sequence_matters then
    let expected := scenario.expected_behavior.expected_sequence
    let actual := action_log.actions.map (fun a => a.function_name)
    some { name := "Sequence",
           status := if expected = actual.take expected.length
             then ValidationStatus.pass else ValidationStatus.fail,
           expected := some (CheckVal.strs expected),
           actual := some (CheckVal.strs actual) }
  else Option.none

/-- ValidationEngine._check_call_counts from
src/src/validation_engine/validator.py. The two sequential status/details
assignments of the source are folded left to right, so a too-many failure
overwrites the details of a too-few failure. -/
def check_call_counts (scenario : TestScenario) (action_log : ActionLog) :
    Option RequirementCheck :=
  let min_calls := scenario.expected_behavior.min_tool_calls
  let max_calls := scenario.expected_behavior.max_tool_calls
  let actual := action_log.total_calls
  if min_calls = Option.none ∧ max_calls = Option.none then Option.none
  else
    let st1 : ValidationStatus × Option String :=
      match min_calls with
      | some m =>
        if actual < m then
          (ValidationStatus.fail,
           some ("Too few calls: " ++ toString actual ++ " < " ++ toString m))
        else (ValidationStatus.pass, Option.none)
      | Option.none => (ValidationStatus.pass, Option.none)
    let st2 : ValidationStatus × Option String :=
      match max_calls with
      | some m =>
        if actual > m then
          (ValidationStatus.fail,
           some ("Too many calls: " ++ toString actual ++ " > " ++ toString m))
        else st1
      | Option.none => st1
    some { name := "Call Count",
           status := st2.1,
           expected := some (CheckVal.bounds min_calls max_calls),
           actual := some (CheckVal.nat actual),
           details := st2.2 }

/-- Issue record built by ValidationEngine._detect_hallucinations for one
unmatched explicit claim. -/
def hallucination_issue (cl : Claim) (t : String) : ConsistencyIssue :=
  { type := IssueType.claim_without_action,
    severity := IssueSeverity.high,
    claim := some cl.claim_text,
    expected_tool := some t,
    quote := some cl.claim_text,
    explanation := "LLM claimed to " ++ optStr cl.action_verb ++
      " but never called " ++ t }

/-- ValidationEngine._detect_hallucinations from
src/src/validation_engine/validator.py. The loop walks the explicit_claims
list; the guard is Python truthiness of inferred_tool, skipping both None
and the empty string. -/
def detect_hallucinations (claim_log : ClaimLog) (action_log : ActionLog) :
    List ConsistencyIssue :=
  claim_log.explicit_claims.filterMap (fun cl =>
    match cl.inferred_tool with
    | Option.none => Option.none
    | some t =>
      if t = "" then Option.none
      else if (action_log.actions.filter (fun a => a.function_name == t)).isEmpty
        then some (hallucination_issue cl t)
      else Option.none)

/-- Set of tool names built by ValidationEngine._detect_silent_actions: the
inferred tools of all claims whose inferred_tool is truthy. -/
def claimed_tools (claim_log : ClaimLog) : List String :=
  (claim_log.claims.filter (fun c => pyTruthyStr c.inferred_tool)).filterMap
    (fun c => c.inferred_tool)

/-- Issue record built by ValidationEngine._detect_silent_actions for one
unclaimed action. -/
def silent_issue (a : Action) : ConsistencyIssue :=
  { type := IssueType.action_without_claim,
    severity := IssueSeverity.medium,
    action := some a.function_name,
    explanation := "LLM called " ++ a.function_name ++ " without mentioning it",
    details := some [("arguments", a.arguments)] }

/-- ValidationEngine._detect_silent_actions from
src/src/validation_engine/validator.py. -/
def detect_silent_actions (action_log : ActionLog) (claim_log : ClaimLog) :
    List ConsistencyIssue :=
  (action_log.actions.filter
    (fun a => decide (a.function_name ∉ claimed_tools claim_log))).map
    silent_issue

/-- ValidationEngine._detect_mismatches from
src/src/validation_engine/validator.py: a stub that always returns the empty
list. -/
def detect_mismatches (claim_log : ClaimLog) (action_log : ActionLog) :
    List ConsistencyIssue := []

/-- Number of issues of one severity in a list, as counted by the generator
expressions in ValidationEngine.validate. -/
def countSev (sev : IssueSeverity) (l : List ConsistencyIssue) : Nat :=
  (l.filter (fun i => decide (i.severity = sev))).length

/-- ValidationEngine._determine_overall_status from
src/src/validation_engine/validator.py. -/
def determine_overall_status (critical_count high_count : Nat)
    (required_check forbidden_check : RequirementCheck) : ValidationStatus :=
  if 0 < critical_count ∨ forbidden_check.status = ValidationStatus.fail then
    ValidationStatus.fail
  else if 0 < high_count ∨ required_check.status = ValidationStatus.fail then
    ValidationStatus.partial_
  else ValidationStatus.pass

/-- ValidationEngine.validate from src/src/validation_engine/validator.py.
The first argument is the clock reading taken by the default factory of
ValidationReport.timestamp at construction time. -/
def validate (now : Nat) (scenario : TestScenario) (action_log : ActionLog)
    (claim_log : ClaimLog) : ValidationReport :=
  let required_tools_check := check_required_tools scenario action_log
  let forbidden_tools_check := check_forbidden_tools scenario action_log
  let parameters_check := check_parameters scenario action_log
  let sequence_check := check_sequence scenario action_log
  let call_count_check := check_call_counts scenario action_log
  let hallucinations := detect_hallucinations claim_log action_log
  let silent_actions := detect_silent_actions action_log claim_log
  let mismatches := detect_mismatches claim_log action_log
  let all_issues := hallucinations ++ silent_actions ++ mismatches
  let critical_count := countSev IssueSeverity.critical all_issues +
    (if forbidden_tools_check.status = ValidationStatus.fail then 1 else 0)
  let high_count := countSev IssueSeverity.high all_issues +
    (if required_tools_check.status = ValidationStatus.fail then 1 else 0)
  let medium_count := countSev IssueSeverity.medium all_issues
  let low_count := countSev IssueSeverity.low all_issues
  let status := determine_overall_status critical_count high_count
    required_tools_check forbidden_tools_check
  { scenario_id := some scenario.id,
    timestamp := now,
    pass_fail_status := status,
    required_tools_check := required_tools_check,
    forbidden_tools_check := forbidden_tools_check,
    parameters_check := parameters_check,
    sequence_check := sequence_check,
    call_count_check := call_count_check,
    hallucinations := hallucinations,
    silent_actions := silent_actions,
    mismatches := mismatches,
    total_issues := all_issues.length,
    critical_issues := critical_count,
    high_severity_issues := high_count,
    medium_severity_issues := medium_count,
    low_severity_issues := low_count }

/-- Entry of ScoringSystem.CRITERIA for tool_selection from
src/src/scoring_system/scorer.py. -/
def criteria_tool_selection : ScoringCriteria :=
  { name := "Tool Selection Accuracy", weight := 2.5,
    description := "Calls correct tools for the task" }

/-- Entry of ScoringSystem.CRITERIA for parameters. -/
def criteria_parameters : ScoringCriteria :=
  { name := "Parameter Correctness", weight := 1.5,
    description := "Function parameters are accurate and complete" }

/-- Entry of ScoringSystem.CRITERIA for sequence. -/
def criteria_sequence : ScoringCriteria :=
  { name := "Execution Sequence", weight := 1.5,
    description := "Tools called in logical, efficient order" }

/-- Entry of ScoringSystem.CRITERIA for consistency. -/
def criteria_consistency : ScoringCriteria :=
  { name := "Claim-Action Consistency", weight := 2.5,
    description := "Stated intentions match actual actions" }

/-- Entry of ScoringSystem.CRITERIA for compliance. -/
def criteria_compliance : ScoringCriteria :=
  { name := "Compliance", weight := 1.0,
    description := "Follows constraints (no forbidden tools)" }

/-- Entry of ScoringSystem.CRITERIA for efficiency. -/
def criteria_efficiency : ScoringCriteria :=
  { name := "Efficiency", weight := 1.0,
    description := "Completes task with minimal tool calls" }

/-- ScoringSystem.CRITERIA from src/src/scoring_system/scorer.py, in dict
insertion order. -/
def CRITERIA : List (String × ScoringCriteria) :=
  [("tool_selection", criteria_tool_selection),
   ("parameters", criteria_parameters),
   ("sequence", criteria_sequence),
   ("consistency", criteria_consistency),
   ("compliance", criteria_compliance),
   ("efficiency", criteria_efficiency)]

/-- ScoringSystem._score_tool_selection from
src/src/scoring_system/scorer.py. -/
def score_tool_selection (validation_report : ValidationReport)
    (scenario : TestScenario) : Subscore :=
  let criterion := criteria_tool_selection
  let missing := validation_report.required_tools_check.missing.length
  let score1 : ℚ := if 0 < missing then 10 - (missing : ℚ) * 3 else 10
  let violations := validation_report.forbidden_tools_check.extra.length
  let score2 : ℚ := if 0 < violations then 0 else score1
  let score := max 0 score2
  let e1 : List String :=
    if 0 < missing then ["Missing " ++ toString missing ++ " required tool(s)"]
    else []
  let e2 : List String :=
    if 0 < violations then
      e1 ++ ["Used " ++ toString violations ++ " forbidden tool(s)"]
    else e1
  { criterion := criterion.name,
    score := score,
    weight := criterion.weight,
    weighted_score := (score / 10) * criterion.weight,
    explanation := if e2 = [] then "All required tools called correctly"
      else String.intercalate "; " e2 }

/-- ScoringSystem._score_parameters from src/src/scoring_system/scorer.py.
The details string of a failed check is split on bare semicolons to count the
error segments; a None or empty details string leaves the default score. -/
def score_parameters (validation_report : ValidationReport) : Subscore :=
  let criterion := criteria_parameters
  let applied : Option Nat :=
    if validation_report.parameters_check.status ≠ ValidationStatus.pass then
      match validation_report.parameters_check.details with
      | some e => if e = "" then Option.none else some (e.splitOn ";").length
      | Option.none => Option.none
    else Option.none
  let score : ℚ :=
    match applied with
    | some error_count => max 0 (10 - (error_count : ℚ) * 3)
    | Option.none => 10
  { criterion := criterion.name,
    score := score,
    weight := criterion.weight,
    weighted_score := (score / 10) * criterion.weight,
    explanation :=
      match applied with
      | some error_count => toString error_count ++ " parameter error(s)"
      | Option.none => "All parameters correct" }

/-- ScoringSystem._score_sequence from src/src/scoring_system/scorer.py. The
flat penalty applies only when sequence_matters and the (truthy) sequence
check did not pass. -/
def score_sequence (validation_report : ValidationReport)
    (scenario : TestScenario) : Subscore :=
  let criterion := criteria_sequence
  let failed : Bool :=
    if scenario.expected_behavior.sequence_matters then
      match validation_report.sequence_check with
      | some chk => decide (chk.status ≠ ValidationStatus.pass)
      | Option.none => false
    else false
  let score : ℚ := if failed then 5 else 10
  { criterion := criterion.name,
    score := score,
    weight := criterion.weight,
    weighted_score := (score / 10) * criterion.weight,
    explanation := if failed then "Incorrect sequence" else "Correct sequence" }

/-- ScoringSystem._score_consistency from src/src/scoring_system/scorer.py. -/
def score_consistency (validation_report : ValidationReport) : Subscore :=
  let criterion := criteria_consistency
  let hallucinations := validation_report.hallucinations.length
  let silent_actions := validation_report.silent_actions.length
  let score : ℚ :=
    max 0 (10 - (hallucinations : ℚ) * 4 - (silent_actions : ℚ) * 2)
  let e1 : List String :=
    if 0 < hallucinations then [toString hallucinations ++ " hallucination(s)"]
    else []
  let e2 : List String :=
    if 0 < silent_actions then
      e1 ++ [toString silent_actions ++ " silent action(s)"]
    else e1
  { criterion := criterion.name,
    score := score,
    weight := criterion.weight,
    weighted_score := (score / 10) * criterion.weight,
    explanation := if e2 = [] then "Perfect consistency"
      else String.intercalate "; " e2 }

/-- ScoringSystem._score_compliance from src/src/scoring_system/scorer.py. -/
def score_compliance (validation_report : ValidationReport) : Subscore :=
  let criterion := criteria_compliance
  let violations := validation_report.forbidden_tools_check.extra.length
  let score : ℚ := if 0 < violations then 0 else 10
  { criterion := criterion.name,
    score := score,
    weight := criterion.weight,
    weighted_score := (score / 10) * criterion.weight,
    explanation := if 0 < violations then
      "Used " ++ toString violations ++ " forbidden tool(s)"
    else "Full compliance" }

/-- ScoringSystem._score_efficiency from src/src/scoring_system/scorer.py. -/
def score_efficiency (action_log : ActionLog) (scenario : TestScenario) :
    Subscore :=
  let criterion := criteria_efficiency
  let actual : ℚ := (action_log.total_calls : ℚ)
  let expected : Nat :=
    if scenario.expected_behavior.required_tools.length = 0 then 1
    else scenario.expected_behavior.required_tools.length
  let ratio := actual / (expected : ℚ)
  let score : ℚ :=
    if ratio ≤ 1 then 10
    else if ratio ≤ 1.5 then 7
    else max 0 (10 - (ratio - 1) * 10)
  let explanation :=
    if ratio ≤ 1 then "Optimal efficiency"
    else if ratio ≤ 1.5 then "Minor inefficiency"
    else "Inefficient (" ++ fmt1 ratio ++ "x expected calls)"
  { criterion := criterion.name,
    score := score,
    weight := criterion.weight,
    weighted_score := (score / 10) * criterion.weight,
    explanation := explanation }

/-- ScoringSystem._assign_grade from src/src/scoring_system/scorer.py,
applied to the unrounded total. -/
def assign_grade (total : ℚ) : LetterGrade :=
  if 9 ≤ total then LetterGrade.aPlus
  else if 8 ≤ total then LetterGrade.a
  else if 7 ≤ total then LetterGrade.b
  else if 6 ≤ total then LetterGrade.c
  else if 5 ≤ total then LetterGrade.d
  else LetterGrade.f

/-- ScoringSystem._generate_explanation from
src/src/scoring_system/scorer.py. -/
def generate_explanation (subscores : List (String × Subscore))
    (validation_report : ValidationReport) : String :=
  let parts := (subscores.filter (fun p => decide (p.2.score < 7))).map
    (fun p => p.2.criterion ++ ": " ++ p.2.explanation)
  if parts = [] then "Excellent performance across all criteria"
  else String.intercalate "; " parts

/-- ScoringSystem.calculate_score from src/src/scoring_system/scorer.py. The
total and percentile are rounded to two decimals; the grade is assigned from
the unrounded total. -/
def calculate_score (validation_report : ValidationReport)
    (action_log : ActionLog) (scenario : TestScenario) : Score :=
  let subscores : List (String × Subscore) :=
    [("tool_selection", score_tool_selection validation_report scenario),
     ("parameters", score_parameters validation_report),
     ("sequence", score_sequence validation_report scenario),
     ("consistency", score_consistency validation_report),
     ("compliance", score_compliance validation_report),
     ("efficiency", score_efficiency action_log scenario)]
  let total := (subscores.map (fun p => p.2.weighted_score)).sum
  { total := pyRound2 total,
    subscores := subscores,
    grade := assign_grade total,
    percentile := pyRound2 (total * 10),
    explanation := generate_explanation subscores validation_report }

/-- Hallucination list as the specification words it: one issue for every
EXPLICIT-type claim with a non-null inferred_tool such that no action in the
action log has that tool as its function_name. -/
def c5_claimed_hallucinations (claim_log : ClaimLog) (action_log : ActionLog) :
    List ConsistencyIssue :=
  (claim_log.claims.filter
    (fun c => decide (c.claim_type = ClaimType.explicit))).filterMap
    (fun cl =>
      match cl.inferred_tool with
      | some t =>
        if decide (∀ a ∈ action_log.actions, a.function_name ≠ t) then
          some (hallucination_issue cl t)
        else Option.none
      | Option.none => Option.none)

/-- Hallucination list with the one amendment the code forces: the
inferred_tool must be non-null and also non-empty, because the source guards
with Python truthiness. -/
def c5_amended_hallucinations (claim_log : ClaimLog) (action_log : ActionLog) :
    List ConsistencyIssue :=
  (claim_log.claims.filter
    (fun c => decide (c.claim_type = ClaimType.explicit))).filterMap
    (fun cl =>
      match cl.inferred_tool with
      | some t =>
        if t = "" then Option.none
        else if decide (∀ a ∈ action_log.actions, a.function_name ≠ t) then
          some (hallucination_issue cl t)
        else Option.none
      | Option.none => Option.none)

/-- Silent-action list as the specification words it: one issue for every
action whose function_name is the inferred_tool of no claim of any type,
where claims count whenever their inferred_tool is non-null. -/
def c6_claimed_silent (action_log : ActionLog) (claim_log : ClaimLog) :
    List ConsistencyIssue :=
  (action_log.actions.filter
    (fun a => decide (¬ ∃ c ∈ claim_log.claims,
      c.inferred_tool = some a.function_name))).map silent_issue

/-- Silent-action list with the one amendment the code forces: a claim only
shields an action when its inferred_tool is non-null and non-empty, because
the source builds the claimed-tool set with Python truthiness. -/
def c6_amended_silent (action_log : ActionLog) (claim_log : ClaimLog) :
    List ConsistencyIssue :=
  (action_log.actions.filter
    (fun a => decide (¬ ∃ c ∈ claim_log.claims,
      c.inferred_tool = some a.function_name ∧ a.function_name ≠ ""))).map
    silent_issue

/-- Error strings of the parameters check as the claim words them: per
scenario-declared (tool, expected_parameter_map) pair, a not-called error
when no action matches the tool name, and otherwise per matching action and
expected parameter a missing error when dict.get yields None and an
expected/got error on any other unequal value. -/
def c7_errors (scenario : TestScenario) (action_log : ActionLog) :
    List String :=
  scenario.expected_behavior.required_parameters.flatMap (fun pr =>
    if decide (∀ a ∈ action_log.actions, a.function_name ≠ pr.1) then
      ["Tool " ++ pr.1 ++ " not called"]
    else
      (action_log.actions.filter (fun a => a.function_name == pr.1)).flatMap
        (fun a => pr.2.flatMap (fun pv =>
          if pyGet a.arguments pv.1 = PyVal.none then
            [pr.1 ++ "." ++ pv.1 ++ ": missing"]
          else if pyGet a.arguments pv.1 ≠ pv.2 then
            [pr.1 ++ "." ++ pv.1 ++ ": expected " ++ pyStr pv.2 ++ ", got " ++
              pyStr (pyGet a.arguments pv.1)]
          else [])))

/-- Minimal scenario with empty expected behavior, used as a base for the
concrete inputs below. -/
def sc_base : TestScenario :=
  { id := "sc", name := "base", category := ScenarioCategory.file_ops,
    prompt := { user_query := "q" }, expected_behavior := {} }

/-- Scenario requiring one tool that the empty action log never calls. -/
def sc_req : TestScenario :=
  { sc_base with
    id := "sc-req",
    expected_behavior := { required_tools := ["read_file"] } }

/-- Scenario forbidding one tool. -/
def sc_forb : TestScenario :=
  { sc_base with
    id := "sc-forb",
    expected_behavior := { forbidden_tools := ["run_terminal_command"] } }

/-- Action log that called the forbidden tool once. -/
def al_forb : ActionLog :=
  { total_calls := 1,
    actions := [{ sequence_number := 1, function_name := "run_terminal_command",
                  arguments := [] }],
    summary := { unique_tools_used := ["run_terminal_command"] } }

/-- Scenario with three required tools, for the efficiency ratio 5/3. -/
def sc_three : TestScenario :=
  { sc_base with
    id := "sc-three",
    expected_behavior := { required_tools := ["a", "b", "c"] } }

/-- Action log with five calls and no recorded actions. -/
def al_five : ActionLog := { total_calls := 5 }

/-- Validation report whose checks all passed and whose issue lists are
empty, as validate produces for a fully clean run. -/
def rp_clean : ValidationReport :=
  { scenario_id := some "sc-three", timestamp := 0,
    pass_fail_status := ValidationStatus.pass,
    required_tools_check := { name := "Required Tools",
                              status := ValidationStatus.pass },
    forbidden_tools_check := { name := "Forbidden Tools",
                               status := ValidationStatus.pass },
    parameters_check := { name := "Parameters",
                          status := ValidationStatus.pass } }

/-- Explicit claim whose inferred_tool is the empty string: non-null, yet
falsy for the Python truthiness guard. -/
def cl_empty : Claim :=
  { claim_text := "I will act", inferred_tool := some "",
    claim_type := ClaimType.explicit }

/-- Claim log holding only the empty-string-tool explicit claim, with the
partition lists filled consistently. -/
def clog_empty : ClaimLog :=
  { total_claims := 1, claims := [cl_empty], explicit_claims := [cl_empty] }

/-- Explicit claim inferring edit_file. -/
def cl_edit : Claim :=
  { claim_text := "I will edit the file", action_verb := some "edit",
    inferred_tool := some "edit_file", claim_type := ClaimType.explicit }

/-- Claim log holding only the edit_file claim. -/
def clog_edit : ClaimLog :=
  { total_claims := 1, claims := [cl_edit], explicit_claims := [cl_edit] }

/-- Vague claim whose inferred_tool is the empty string. -/
def cl_vague_empty : Claim :=
  { claim_text := "something", inferred_tool := some "",
    claim_type := ClaimType.vague }

/-- Claim log holding only the vague empty-string-tool claim. -/
def clog_vague_empty : ClaimLog :=
  { total_claims := 1, claims := [cl_vague_empty],
    vague_statements := [cl_vague_empty] }

/-- Action log with one action whose function_name is the empty string. -/
def al_empty_name : ActionLog :=
  { total_calls := 1,
    actions := [{ sequence_number := 1, function_name := "", arguments := [] }],
    summary := { unique_tools_used := [""] } }

/-- Scenario where order matters for a two-step sequence. -/
def sc_seq : TestScenario :=
  { sc_base with
    id := "sc-seq",
    expected_behavior := { sequence_matters := true,
                           expected_sequence := ["read_file", "edit_file"] } }

/-- Action log performing the expected two-step sequence in order. -/
def al_seq : ActionLog :=
  { total_calls := 2,
    actions := [{ sequence_number := 1, function_name := "read_file",
                  arguments := [] },
                { sequence_number := 2, function_name := "edit_file",
                  arguments := [] }],
    summary := { unique_tools_used := ["read_file", "edit_file"] } }

/-- Scenario with two required tools, for the efficiency examples. -/
def sc_two : TestScenario :=
  { sc_base with
    id := "sc-two",
    expected_behavior := { required_tools := ["a", "b"] } }

/-- Action log with two calls. -/
def al_two : ActionLog := { total_calls := 2 }

/-- Action log with four calls. -/
def al_four : ActionLog := { total_calls := 4 }

/-- Scenario declaring an expected parameter whose expected value is None. -/
def sc_pnone : TestScenario :=
  { sc_base with
    id := "sc-pnone",
    expected_behavior :=
      { required_parameters := [("read_file", [("path", PyVal.none)])] } }

/-- Action calling read_file with the path argument present and bound to
None. -/
def act_pnone : Action :=
  { sequence_number := 1, function_name := "read_file",
    arguments := [("path", PyVal.none)] }

/-- Action log holding only the None-argument read_file call. -/
def al_pnone : ActionLog :=
  { total_calls := 1, actions := [act_pnone],
    summary := { unique_tools_used := ["read_file"] } }

/-- Two pointwise-equal selector functions give the same filterMap. -/
theorem filterMap_ext {α β : Type} (f g : α → Option β) (l : List α)
    (h : ∀ x, f x = g x) : l.filterMap f = l.filterMap g :=
  congrArg (fun fn => l.filterMap fn) (funext h)

/-- Every issue carries exactly one of the four severities, so the length of
an issue list is the sum of its four severity counts. -/
theorem length_eq_countSev (l : List ConsistencyIssue) :
    l.length = countSev IssueSeverity.critical l + countSev IssueSeverity.high l +
      countSev IssueSeverity.medium l + countSev IssueSeverity.low l := by
  induction l with
  | nil => rfl
  | cons i t ih =>
    cases hsev : i.severity <;>
      simp only [countSev, List.filter_cons, hsev, List.length_cons] at ih ⊢ <;>
      simp only [decide_eq_true_eq] <;>
      split <;> simp_all <;> omega

/-- Case analysis of ValidationEngine._determine_overall_status. -/
theorem determine_cases (cc hc : Nat) (rc fc : RequirementCheck) :
    (determine_overall_status cc hc rc fc = ValidationStatus.fail ↔
      (0 < cc ∨ fc.status = ValidationStatus.fail)) ∧
    (determine_overall_status cc hc rc fc = ValidationStatus.partial_ ↔
      (¬ (0 < cc ∨ fc.status = ValidationStatus.fail) ∧
       (0 < hc ∨ rc.status = ValidationStatus.fail))) ∧
    (determine_overall_status cc hc rc fc = ValidationStatus.pass ↔
      (¬ (0 < cc ∨ fc.status = ValidationStatus.fail) ∧
       ¬ (0 < hc ∨ rc.status = ValidationStatus.fail))) := by
  unfold determine_overall_status
  by_cases h1 : (0 < cc ∨ fc.status = ValidationStatus.fail) <;>
    by_cases h2 : (0 < hc ∨ rc.status = ValidationStatus.fail) <;>
    simp [h1, h2]

/-- A tool both used and forbidden makes the forbidden-tools check fail. -/
theorem check_forbidden_tools_fail (scenario : TestScenario)
    (action_log : ActionLog) (tool : String)
    (h1 : tool ∈ action_log.summary.unique_tools_used)
    (h2 : tool ∈ scenario.expected_behavior.forbidden_tools) :
    (check_forbidden_tools scenario action_log).status = ValidationStatus.fail := by
  unfold check_forbidden_tools
  dsimp only
  have hmem : tool ∈ (pySet scenario.expected_behavior.forbidden_tools).filter
      (fun t => decide (t ∈ action_log.summary.unique_tools_used)) := by
    refine List.mem_filter.mpr ⟨?_, decide_eq_true h1⟩
    exact List.mem_dedup.mpr h2
  rw [if_neg (List.ne_nil_of_mem hmem)]

/-- C1: the claim says validate and calculate_score are deterministic with
every output field, including ValidationReport.timestamp, identical across
two runs on identical inputs. The timestamp default factory reads the wall
clock, so two runs at clock readings 0 and 1 on the same inputs give
reports that differ (in the timestamp field). -/
theorem c1_counterexample :
    validate 0 sc_base {} {} ≠ validate 1 sc_base {} {} := by decide

/-- C1 amended: validate is deterministic in every field except timestamp,
which records the clock reading taken at construction; for any two clock
readings the two reports agree on all other fields. The scorer reads no
clock at all, so calculate_score is a plain function of its inputs in this
embedding. -/
theorem c1_validate_deterministic_except_timestamp (t1 t2 : Nat)
    (scenario : TestScenario) (action_log : ActionLog) (claim_log : ClaimLog) :
    validate t1 scenario action_log claim_log =
      { validate t2 scenario action_log claim_log with timestamp := t1 } := rfl

/-- C2: the claim equates total_issues with the sum of the four per-severity
aggregate counts, but those counts include the check-driven penalties while
total_issues is the bare length of the issue lists. With one required tool
never called and no issues at all, total_issues is 0 while the sum of the
four counts is 1. -/
theorem c2_counterexample :
    ¬ ((validate 0 sc_req {} {}).total_issues =
       (validate 0 sc_req {} {}).critical_issues +
       (validate 0 sc_req {} {}).high_severity_issues +
       (validate 0 sc_req {} {}).medium_severity_issues +
       (validate 0 sc_req {} {}).low_severity_issues) := by decide

/-- C2 amended: critical_issues is the CRITICAL count of the concatenated
issue lists plus one if the forbidden-tools check failed, high_severity_issues
is the HIGH count plus one if the required-tools check failed, the medium and
low counts are the bare per-severity counts, and total_issues is the length
of the concatenated issue lists — that is, the sum of the four per-severity
counts without the check-driven penalties. -/
theorem c2_aggregate_counts (t : Nat) (scenario : TestScenario)
    (action_log : ActionLog) (claim_log : ClaimLog) :
    (validate t scenario action_log claim_log).critical_issues =
      countSev IssueSeverity.critical
        (detect_hallucinations claim_log action_log ++
         detect_silent_actions action_log claim_log ++
         detect_mismatches claim_log action_log) +
      (if (check_forbidden_tools scenario action_log).status = ValidationStatus.fail
        then 1 else 0) ∧
    (validate t scenario action_log claim_log).high_severity_issues =
      countSev IssueSeverity.high
        (detect_hallucinations claim_log action_log ++
         detect_silent_actions action_log claim_log ++
         detect_mismatches claim_log action_log) +
      (if (check_required_tools scenario action_log).status = ValidationStatus.fail
        then 1 else 0) ∧
    (validate t scenario action_log claim_log).medium_severity_issues =
      countSev IssueSeverity.medium
        (detect_hallucinations claim_log action_log ++
         detect_silent_actions action_log claim_log ++
         detect_mismatches claim_log action_log) ∧
    (validate t scenario action_log claim_log).low_severity_issues =
      countSev IssueSeverity.low
        (detect_hallucinations claim_log action_log ++
         detect_silent_actions action_log claim_log ++
         detect_mismatches claim_log action_log) ∧
    (validate t scenario action_log claim_log).total_issues =
      (detect_hallucinations claim_log action_log ++
       detect_silent_actions action_log claim_log ++
       detect_mismatches claim_log action_log).length ∧
    (validate t scenario action_log claim_log).total_issues =
      countSev IssueSeverity.critical
        (detect_hallucinations claim_log action_log ++
         detect_silent_actions action_log claim_log ++
         detect_mismatches claim_log action_log) +
      countSev IssueSeverity.high
        (detect_hallucinations claim_log action_log ++
         detect_silent_actions action_log claim_log ++
         detect_mismatches claim_log action_log) +
      countSev IssueSeverity.medium
        (detect_hallucinations claim_log action_log ++
         detect_silent_actions action_log claim_log ++
         detect_mismatches claim_log action_log) +
      countSev IssueSeverity.low
        (detect_hallucinations claim_log action_log ++
         detect_silent_actions action_log claim_log ++
         detect_mismatches claim_log action_log) :=
  ⟨rfl, rfl, rfl, rfl, rfl, length_eq_countSev _⟩

/-- C3: the overall status of a report is FAIL exactly when the aggregate
critical count (which includes the forbidden-check penalty) is positive or
the forbidden-tools check failed; otherwise PARTIAL exactly when the
aggregate high count (which includes the required-check penalty) is positive
or the required-tools check failed; otherwise PASS. In particular any tool
both used and forbidden forces overall status FAIL. -/
theorem c3_status_priority_cascade (t : Nat) (scenario : TestScenario)
    (action_log : ActionLog) (claim_log : ClaimLog) :
    ((validate t scenario action_log claim_log).pass_fail_status =
        ValidationStatus.fail ↔
      (0 < (validate t scenario action_log claim_log).critical_issues ∨
       (check_forbidden_tools scenario action_log).status =
         ValidationStatus.fail)) ∧
    ((validate t scenario action_log claim_log).pass_fail_status =
        ValidationStatus.partial_ ↔
      (¬ (0 < (validate t scenario action_log claim_log).critical_issues ∨
          (check_forbidden_tools scenario action_log).status =
            ValidationStatus.fail) ∧
       (0 < (validate t scenario action_log claim_log).high_severity_issues ∨
        (check_required_tools scenario action_log).status =
          ValidationStatus.fail))) ∧
    ((validate t scenario action_log claim_log).pass_fail_status =
        ValidationStatus.pass ↔
      (¬ (0 < (validate t scenario action_log claim_log).critical_issues ∨
          (check_forbidden_tools scenario action_log).status =
            ValidationStatus.fail) ∧
       ¬ (0 < (validate t scenario action_log claim_log).high_severity_issues ∨
          (check_required_tools scenario action_log).status =
            ValidationStatus.fail))) ∧
    (∀ tool ∈ action_log.summary.unique_tools_used,
      tool ∈ scenario.expected_behavior.forbidden_tools →
      (validate t scenario action_log claim_log).pass_fail_status =
        ValidationStatus.fail) := by
  have hd := determine_cases
    ((validate t scenario action_log claim_log).critical_issues)
    ((validate t scenario action_log claim_log).high_severity_issues)
    (check_required_tools scenario action_log)
    (check_forbidden_tools scenario action_log)
  refine ⟨hd.1, hd.2.1, hd.2.2, ?_⟩
  intro tool hmem hforb
  exact hd.1.mpr (Or.inr (check_forbidden_tools_fail scenario action_log tool
    hmem hforb))

/-- Witness for C3 at a concrete input: a scenario forbidding
run_terminal_command and an action log that used it yield overall status
FAIL. -/
theorem c3_witness :
    (validate 0 sc_forb al_forb {}).pass_fail_status = ValidationStatus.fail :=
  (c3_status_priority_cascade 0 sc_forb al_forb {}).2.2.2
    "run_terminal_command" (by decide) (by decide)

/-- C8: the sequence check is absent exactly when sequence_matters is false;
otherwise its status is PASS exactly when the expected sequence equals the
prefix of the actual tool-call names of the expected sequence's length, and
FAIL exactly otherwise (so PARTIAL never occurs here). -/
theorem c8_sequence_check (scenario : TestScenario) (action_log : ActionLog) :
    (check_sequence scenario action_log = Option.none ↔
      scenario.expected_behavior.sequence_matters = false) ∧
    (scenario.expected_behavior.sequence_matters = true →
      ∃ chk, check_sequence scenario action_log = some chk ∧
        (chk.status = ValidationStatus.pass ↔
          scenario.expected_behavior.expected_sequence =
            (action_log.actions.map (fun a => a.function_name)).take
              scenario.expected_behavior.expected_sequence.length) ∧
        (chk.status = ValidationStatus.fail ↔
          ¬ scenario.expected_behavior.expected_sequence =
            (action_log.actions.map (fun a => a.function_name)).take
              scenario.expected_behavior.expected_sequence.length)) := by
  unfold check_sequence
  cases hsm : scenario.expected_behavior.sequence_matters with
  | false => simp
  | true =>
    refine ⟨iff_of_false (by simp) (by simp), fun _ => ⟨_, rfl, ?_, ?_⟩⟩
    all_goals
      by_cases h : scenario.expected_behavior.expected_sequence =
          (action_log.actions.map (fun a => a.function_name)).take
            scenario.expected_behavior.expected_sequence.length
    · exact iff_of_true (by dsimp only; rw [if_pos h]) h
    · exact iff_of_false (by dsimp only; rw [if_neg h]; simp) h
    · exact iff_of_false (by dsimp only; rw [if_pos h]; simp) (not_not_intro h)
    · exact iff_of_true (by dsimp only; rw [if_neg h]) h

/-- Witness for C8 at a concrete input: with sequence_matters true and the
two expected calls performed in order, the check is present, its status is
PASS exactly when the prefix comparison holds and FAIL exactly otherwise. -/
theorem c8_witness :
    ∃ chk, check_sequence sc_seq al_seq = some chk ∧
      (chk.status = ValidationStatus.pass ↔
        sc_seq.expected_behavior.expected_sequence =
          (al_seq.actions.map (fun a => a.function_name)).take
            sc_seq.expected_behavior.expected_sequence.length) ∧
      (chk.status = ValidationStatus.fail ↔
        ¬ sc_seq.expected_behavior.expected_sequence =
          (al_seq.actions.map (fun a => a.function_name)).take
            sc_seq.expected_behavior.expected_sequence.length) :=
  (c8_sequence_check sc_seq al_seq).2 rfl

/-- C9: the efficiency raw score is a function of the ratio of total calls
to max(1, number of required tools): 10 when the ratio is at most 1, 7 when
it is at most 1.5, and max(0, 10 - (ratio - 1) * 10) beyond that; with two
required tools, two calls score 10 and four calls score 0. -/
theorem c9_efficiency (action_log : ActionLog) (scenario : TestScenario) :
    ((score_efficiency action_log scenario).score =
      (if (action_log.total_calls : ℚ) /
          ((max 1 scenario.expected_behavior.required_tools.length : ℕ) : ℚ) ≤ 1
        then 10
       else if (action_log.total_calls : ℚ) /
          ((max 1 scenario.expected_behavior.required_tools.length : ℕ) : ℚ) ≤ 1.5
        then 7
       else max 0 (10 - ((action_log.total_calls : ℚ) /
          ((max 1 scenario.expected_behavior.required_tools.length : ℕ) : ℚ) - 1)
            * 10))) ∧
    (score_efficiency al_two sc_two).score = 10 ∧
    (score_efficiency al_four sc_two).score = 0 := by
  refine ⟨?_, ?_, ?_⟩
  · unfold score_efficiency
    dsimp only
    rw [show (if scenario.expected_behavior.required_tools.length = 0 then 1
        else scenario.expected_behavior.required_tools.length) =
        max 1 scenario.expected_behavior.required_tools.length from by
      rcases Nat.eq_zero_or_pos scenario.expected_behavior.required_tools.length
        with h0 | h0
      · rw [if_pos h0, h0]
        omega
      · rw [if_neg (Nat.pos_iff_ne_zero.mp h0)]
        omega]
  · norm_num [score_efficiency, al_two, sc_two, sc_base]
  · norm_num [score_efficiency, al_four, sc_two, sc_base, max_def]

/-- C5: the claim counts every EXPLICIT claim with non-null inferred_tool,
but the source guards with Python truthiness, which also skips an inferred
tool equal to the empty string. An explicit claim inferring the empty-string
tool against an empty action log produces no issue, while the claim as
stated demands one. -/
theorem c5_counterexample :
    detect_hallucinations clog_empty ({} : ActionLog) = [] ∧
    (c5_claimed_hallucinations clog_empty ({} : ActionLog)).length = 1 := by
  decide

/-- C5 amended: for a claim log whose explicit_claims list is exactly the
claims of EXPLICIT type, the detector emits exactly one
CLAIM_WITHOUT_ACTION/HIGH issue per EXPLICIT claim whose inferred_tool is
non-null and non-empty and matched by no action, and nothing else. -/
theorem c5_explicit_hallucinations (claim_log : ClaimLog)
    (action_log : ActionLog)
    (h : claim_log.explicit_claims = claim_log.claims.filter
      (fun c => decide (c.claim_type = ClaimType.explicit))) :
    detect_hallucinations claim_log action_log =
      c5_amended_hallucinations claim_log action_log := by
  unfold detect_hallucinations c5_amended_hallucinations
  rw [h]
  apply filterMap_ext
  intro cl
  cases htool : cl.inferred_tool with
  | none => rfl
  | some t =>
    dsimp only
    by_cases he : t = ""
    · rw [if_pos he, if_pos he]
    · rw [if_neg he, if_neg he,
        show (action_log.actions.filter (fun a => a.function_name == t)).isEmpty
          = decide (∀ a ∈ action_log.actions, a.function_name ≠ t) from by
            rw [Bool.eq_iff_iff]
            simp [List.isEmpty_iff, List.filter_eq_nil_iff]]

/-- Witness for C5 at a concrete input: a claim log holding one explicit
claim inferring edit_file, correctly partitioned, against an empty action
log. -/
theorem c5_witness :
    detect_hallucinations clog_edit ({} : ActionLog) =
      c5_amended_hallucinations clog_edit ({} : ActionLog) :=
  c5_explicit_hallucinations clog_edit {} rfl

/-- Membership in the claimed-tool set of the silent-action detector: a name
is claimed exactly when some claim infers it and it is non-empty. -/
theorem mem_claimed_tools (claim_log : ClaimLog) (x : String) :
    x ∈ claimed_tools claim_log ↔
      ∃ c ∈ claim_log.claims, c.inferred_tool = some x ∧ x ≠ "" := by
  unfold claimed_tools
  simp only [List.mem_filterMap, List.mem_filter]
  constructor
  · rintro ⟨c, ⟨hc, htr⟩, hi⟩
    refine ⟨c, hc, hi, ?_⟩
    rw [hi] at htr
    simpa [pyTruthyStr] using htr
  · rintro ⟨c, hc, hi, hne⟩
    refine ⟨c, ⟨hc, ?_⟩, hi⟩
    rw [hi]
    simpa [pyTruthyStr] using hne

/-- C6: the claim shields an action whenever any claim has that action's
tool as its non-null inferred_tool, but the source builds the claimed-tool
set with Python truthiness, which drops an empty-string inferred_tool. With
a claim inferring the empty string and an action named by the empty string,
the code emits an issue while the claim as stated emits none. -/
theorem c6_counterexample :
    (detect_silent_actions al_empty_name clog_vague_empty).length = 1 ∧
    c6_claimed_silent al_empty_name clog_vague_empty = [] := by decide

/-- C6 amended: the detector emits exactly one ACTION_WITHOUT_CLAIM/MEDIUM
issue, carrying the action's arguments as detail payload, for every action
whose function_name is the inferred_tool of no claim of any type, where only
non-null, non-empty inferred tools count as claimed. -/
theorem c6_silent_actions (action_log : ActionLog) (claim_log : ClaimLog) :
    detect_silent_actions action_log claim_log =
      c6_amended_silent action_log claim_log := by
  unfold detect_silent_actions c6_amended_silent
  congr 1
  apply List.filter_congr
  intro a _
  simp only [decide_eq_decide]
  rw [not_iff_not]
  exact mem_claimed_tools claim_log a.function_name

/-- Error lists of the implementation loop and of the claim-worded
description of the parameters check agree on every input. -/
theorem c7_errors_eq (scenario : TestScenario) (action_log : ActionLog) :
    parameters_errors scenario action_log = c7_errors scenario action_log := by
  unfold parameters_errors c7_errors
  refine congrArg _ (funext fun pr => ?_)
  dsimp only
  rw [show (action_log.actions.filter (fun a => a.function_name == pr.1)).isEmpty
      = decide (∀ a ∈ action_log.actions, a.function_name ≠ pr.1) from by
    rw [Bool.eq_iff_iff]
    simp [List.isEmpty_iff, List.filter_eq_nil_iff]]
  rfl

/-- C7: the parameters check fails exactly when the claim-worded error
generation produces at least one error string, passes exactly when it
produces none, and its details field is the semicolon-space join of the
errors when any exist and null otherwise. -/
theorem c7_parameters_check (scenario : TestScenario) (action_log : ActionLog) :
    ((check_parameters scenario action_log).status = ValidationStatus.fail ↔
      c7_errors scenario action_log ≠ []) ∧
    ((check_parameters scenario action_log).status = ValidationStatus.pass ↔
      c7_errors scenario action_log = []) ∧
    (check_parameters scenario action_log).details =
      (if c7_errors scenario action_log = [] then Option.none
       else some (String.intercalate "; " (c7_errors scenario action_log))) := by
  unfold check_parameters
  dsimp only
  rw [c7_errors_eq]
  by_cases h : c7_errors scenario action_log = [] <;> simp [h]

/-- The inner loop body of the parameters check never returns an empty error
list when the expected value is None. -/
theorem param_error_none_ne_nil (tool : String) (a : Action) (pn : String) :
    param_error tool a (pn, PyVal.none) ≠ [] := by
  unfold param_error
  dsimp only
  by_cases hv : pyGet a.arguments pn = PyVal.none
  · rw [if_pos hv]
    simp
  · rw [if_neg hv, if_pos hv]
    simp

/-- C10: an argument key present but bound to None is reported with the
missing error string, never as a value mismatch; and a scenario expecting
None for a parameter of a called tool can never let the parameters check
pass, because the matching action always contributes an error. -/
theorem c10_none_expected_never_passes :
    (∀ (tool : String) (a : Action) (pn : String) (ev : PyVal),
      a.arguments.lookup pn = some PyVal.none →
      param_error tool a (pn, ev) = [tool ++ "." ++ pn ++ ": missing"]) ∧
    (∀ (scenario : TestScenario) (action_log : ActionLog) (tool : String)
      (eparams : List (String × PyVal)) (pn : String),
      (tool, eparams) ∈ scenario.expected_behavior.required_parameters →
      (pn, PyVal.none) ∈ eparams →
      (∃ a ∈ action_log.actions, a.function_name = tool) →
      (check_parameters scenario action_log).status = ValidationStatus.fail) := by
  constructor
  · intro tool a pn ev hlook
    unfold param_error
    dsimp only
    rw [show pyGet a.arguments pn = PyVal.none from by rw [pyGet, hlook]]
    rw [if_pos rfl]
  · rintro scenario action_log tool eparams pn hpr hpn ⟨a, ha, hfn⟩
    have hfil : a ∈ action_log.actions.filter
        (fun x => x.function_name == tool) :=
      List.mem_filter.mpr ⟨ha, by simp [hfn]⟩
    obtain ⟨e, he⟩ := List.exists_mem_of_ne_nil _
      (param_error_none_ne_nil tool a pn)
    have hmem : e ∈ parameters_errors scenario action_log := by
      unfold parameters_errors
      refine List.mem_flatMap.mpr ⟨(tool, eparams), hpr, ?_⟩
      dsimp only
      rw [if_neg (by
        simp only [List.isEmpty_iff]
        exact fun hh => List.ne_nil_of_mem hfil hh)]
      exact List.mem_flatMap.mpr ⟨a, hfil,
        List.mem_flatMap.mpr ⟨(pn, PyVal.none), hpn, he⟩⟩
    unfold check_parameters
    dsimp only
    rw [if_neg (List.ne_nil_of_mem hmem)]

/-- Witness for C10 at a concrete input: read_file called with path bound to
None, against a scenario expecting path to be None, yields the missing error
and a failing parameters check. -/
theorem c10_witness :
    param_error "read_file" act_pnone ("path", PyVal.str "x") =
      ["read_file.path: missing"] ∧
    (check_parameters sc_pnone al_pnone).status = ValidationStatus.fail := by
  constructor
  · exact c10_none_expected_never_passes.1 "read_file" act_pnone "path"
      (PyVal.str "x") (by decide)
  · exact c10_none_expected_never_passes.2 sc_pnone al_pnone "read_file"
      [("path", PyVal.none)] "path" (by decide) (by decide)
      ⟨act_pnone, by decide, rfl⟩

/-- C4 amended: the total is the two-decimal rounding of the sum of the six
weighted subscores, every subscore's weighted_score is its raw score divided
by 10 times its weight, and the percentile is the two-decimal rounding of
ten times the unrounded weighted sum — which can differ from total times ten
in the third decimal, because the source rounds the product of the unrounded
total, not the product of the rounded total. -/
theorem c4_score_structure (vr : ValidationReport) (action_log : ActionLog)
    (scenario : TestScenario) :
    (calculate_score vr action_log scenario).total =
      pyRound2 (((calculate_score vr action_log scenario).subscores.map
        (fun p => p.2.weighted_score)).sum) ∧
    (∀ p ∈ (calculate_score vr action_log scenario).subscores,
      p.2.weighted_score = (p.2.score / 10) * p.2.weight) ∧
    (calculate_score vr action_log scenario).percentile =
      pyRound2 ((((calculate_score vr action_log scenario).subscores.map
        (fun p => p.2.weighted_score)).sum) * 10) := by
  refine ⟨rfl, ?_, rfl⟩
  intro p hp
  simp only [calculate_score, List.mem_cons, List.not_mem_nil, or_false] at hp
  rcases hp with rfl | rfl | rfl | rfl | rfl | rfl <;> rfl

/-- Witness for C4 at a concrete input: the tool_selection subscore of the
clean report satisfies the weighted-score equation. -/
theorem c4_witness :
    (score_tool_selection rp_clean sc_three).weighted_score =
      ((score_tool_selection rp_clean sc_three).score / 10) *
        (score_tool_selection rp_clean sc_three).weight :=
  (c4_score_structure rp_clean al_five sc_three).2.1
    ("tool_selection", score_tool_selection rp_clean sc_three)
    (List.mem_cons_self _ _)

/-- C4: the claim says percentile equals total times ten, but the source
computes percentile by rounding ten times the unrounded weighted sum. With
three required tools and five calls the efficiency subscore is 10/3, the
weighted sum is 28/3, total rounds to 9.33, and percentile rounds to 93.33,
which is not 93.3. -/
theorem c4_counterexample :
    (calculate_score rp_clean al_five sc_three).percentile ≠
      (calculate_score rp_clean al_five sc_three).total * 10 := by
  have hs : ((calculate_score rp_clean al_five sc_three).subscores.map
      (fun p => p.2.weighted_score)).sum = 28/3 := by
    simp only [calculate_score, List.map_cons, List.map_nil, List.sum_cons,
      List.sum_nil, score_tool_selection, score_parameters, score_sequence,
      score_consistency, score_compliance, score_efficiency,
      criteria_tool_selection, criteria_parameters, criteria_sequence,
      criteria_consistency, criteria_compliance, criteria_efficiency,
      rp_clean, sc_three, sc_base, al_five]
    norm_num [max_def]
  have hper : (calculate_score rp_clean al_five sc_three).percentile =
      pyRound2 ((28 : ℚ)/3 * 10) := by
    have h0 : (calculate_score rp_clean al_five sc_three).percentile =
        pyRound2 (((calculate_score rp_clean al_five sc_three).subscores.map
          (fun p => p.2.weighted_score)).sum * 10) := rfl
    rw [h0, hs]
  have htot : (calculate_score rp_clean al_five sc_three).total =
      pyRound2 ((28 : ℚ)/3) := by
    have h0 : (calculate_score rp_clean al_five sc_three).total =
        pyRound2 (((calculate_score rp_clean al_five sc_three).subscores.map
          (fun p => p.2.weighted_score)).sum) := rfl
    rw [h0, hs]
  have e1 : pyRound2 ((28 : ℚ)/3 * 10) = 9333/100 := by
    unfold pyRound2 pyRoundInt
    rw [show ⌊(28 : ℚ)/3 * 10 * 100⌋ = 9333 from by norm_num [Int.floor_eq_iff]]
    norm_num
  have e2 : pyRound2 ((28 : ℚ)/3) = 933/100 := by
    unfold pyRound2 pyRoundInt
    rw [show ⌊(28 : ℚ)/3 * 100⌋ = 933 from by norm_num [Int.floor_eq_iff]]
    norm_num
  rw [hper, htot, e1, e2]
  norm_num

end LLMF
